import Mathlib

/-!
# Verification of the ctrld resolution core

Shallow embedding of the resolution core of the `ctrld` DNS-forwarding
client, together with theorems settling the specified properties.

The repository ships the resolver's test suite (`resolver_test.go`) and the
CLI startup code (`cmd/cli/main.go`).  The resolver implementation itself
(endpoint classifier, network-change detector, OS-aware resolver) is not
part of the available sources, so those components are modelled from the
specification; the CLI functions (`initCache`, `normalizeLogFilePath`) are
embedded directly from `cmd/cli/main.go`.

Strings are processed through their underlying character lists so that all
definitions reduce inside the kernel.
-/

/-- `charsStartWith p s` holds when the character list `p` is an initial
segment of `s` (the model of Go's `strings.HasPrefix`). -/
def charsStartWith : List Char → List Char → Bool
  | [], _ => true
  | _ :: _, [] => false
  | p :: ps, s :: ss => p == s && charsStartWith ps ss

/-- Split a character list at every occurrence of the separator `c`
(the model of Go's `strings.Split`). -/
def splitOnChar (c : Char) : List Char → List (List Char)
  | [] => [[]]
  | x :: xs =>
    if x = c then [] :: splitOnChar c xs
    else
      match splitOnChar c xs with
      | [] => [[x]]
      | h :: t => (x :: h) :: t

/-- A non-empty character list consisting solely of decimal digits. -/
def isAllDigitChars (l : List Char) : Bool :=
  !l.isEmpty && l.all Char.isDigit

/-- Decimal value of a digit list. -/
def digitsToNat (l : List Char) : Nat :=
  l.foldl (fun acc c => acc * 10 + (c.toNat - '0'.toNat)) 0

/-- Parse a dotted-quad IPv4 literal into its four octets, or `none` when
the list is not an IPv4 literal (the model of Go's `net.ParseIP` restricted
to IPv4). -/
def ipv4OctetsOfChars (l : List Char) : Option (Nat × Nat × Nat × Nat) :=
  match splitOnChar '.' l with
  | [a, b, c, d] =>
    if isAllDigitChars a && isAllDigitChars b && isAllDigitChars c && isAllDigitChars d then
      let na := digitsToNat a
      let nb := digitsToNat b
      let nc := digitsToNat c
      let nd := digitsToNat d
      if na ≤ 255 && nb ≤ 255 && nc ≤ 255 && nd ≤ 255 then some (na, nb, nc, nd) else none
    else none
  | _ => none

/-- After an opening bracket, scan to the closing bracket and require a
`:port` with a non-empty digit port behind it. -/
def bracketPortChars : List Char → Bool
  | [] => false
  | ']' :: ':' :: p => isAllDigitChars p
  | ']' :: _ => false
  | _ :: xs => bracketPortChars xs

/-- `host:port` shape: either a bracketed IPv6 literal followed by `:port`,
or a single-colon `host:port` with a digit port (the model of a successful
`net.SplitHostPort`). -/
def hostPortChars (l : List Char) : Bool :=
  match l with
  | '[' :: rest => bracketPortChars rest
  | _ =>
    match splitOnChar ':' l with
    | [_, p] => isAllDigitChars p
    | _ => false

/-- The endpoint string has `host:port` shape. -/
def splitHostPortOk (s : String) : Bool :=
  hostPortChars s.data

/-- The endpoint string is a raw IP literal: a dotted-quad IPv4 literal, or
an (unbracketed) IPv6 literal, recognised by the presence of a colon. -/
def isIPLiteralStr (s : String) : Bool :=
  (ipv4OctetsOfChars s.data).isSome || s.data.contains ':'

/-- Modelled from the spec: `ResolverType`, the enumerated transport tag of
the upstream classifier (the resolver source is not among the available
files).  One of Legacy (plain DNS), DOT, DOH, DOQ. -/
inductive ResolverType where
  | legacy
  | dot
  | doh
  | doq
  deriving DecidableEq

/-- Modelled from the spec: `ResolverTypeFromEndpoint`, the pure, total
endpoint classifier (the resolver source is not among the available files;
only its tests are).  Precedence: scheme `https` → DOH; scheme `quic` →
DOQ; a bare `host:port` or raw IP literal (optionally bracketed IPv6) →
Legacy; otherwise (bare hostname) → DOT. -/
def ResolverTypeFromEndpoint (endpoint : String) : ResolverType :=
  if charsStartWith "https://".data endpoint.data then .doh
  else if charsStartWith "quic://".data endpoint.data then .doq
  else if splitHostPortOk endpoint || isIPLiteralStr endpoint then .legacy
  else .dot

/-- Modelled from the spec: the LAN-local / WAN-public partition of
nameserver addresses (private/link-local ranges; the resolver source is
not among the available files).  IPv4: RFC1918 (`10/8`, `172.16/12`,
`192.168/16`) plus link-local `169.254/16`; IPv6: ULA (`fc00::/7`) plus
link-local (`fe80::/10`). -/
def isLanAddr (s : String) : Bool :=
  match ipv4OctetsOfChars s.data with
  | some (a, b, _, _) =>
    a == 10 || (a == 172 && decide (16 ≤ b) && decide (b ≤ 31)) ||
      (a == 192 && b == 168) || (a == 169 && b == 254)
  | none =>
    charsStartWith "fe80:".data s.data || charsStartWith "fc".data s.data ||
      charsStartWith "fd".data s.data

/-- Modelled from the spec: normalization of a WAN nameserver address to
`host:port`, applying the default DNS port 53 when the address has no port
(the resolver source is not among the available files).  An IPv6 literal is
bracketed when the port is added, as Go's `net.JoinHostPort` does. -/
def normalizeNS (s : String) : String :=
  if splitHostPortOk s then s
  else if s.data.contains ':' then "[" ++ s ++ "]:53"
  else s ++ ":53"

/-- Modelled from the spec: the published state of the network-change
detector (the fields of the `osResolver` value `or`, whose source is not
among the available files; only its tests are). -/
structure OsResolverState where
  currentLanServer : Option String
  lastLanServer : Option String
  publicServer : List String
  deriving DecidableEq

/-- The detector state at process start: empty. -/
def osResolverInit : OsResolverState :=
  ⟨none, none, []⟩

/-- Modelled from the spec: `initializeOsResolver` (`Refresh`), the
network-change detector update (the resolver source is not among the
available files; only its tests are).  `newLan` is the first LAN-local
address of the observed list; if absent both LAN fields are cleared; if it
equals the previously-current server, the current flag is cleared and the
server is promoted into `lastLanServer`; otherwise it becomes the current
server and `lastLanServer` is unchanged.  `publicServer` is always replaced
by the normalized WAN addresses of the list. -/
def initializeOsResolver (st : OsResolverState) (ns : List String) : OsResolverState :=
  let pub := (ns.filter (fun a => !isLanAddr a)).map normalizeNS
  match ns.find? isLanAddr with
  | none => ⟨none, none, pub⟩
  | some newLan =>
    if st.currentLanServer = some newLan then
      ⟨none, some newLan, pub⟩
    else
      ⟨some newLan, st.lastLanServer, pub⟩

/-- Modelled from the spec: the outcome of one transport exchange with a
candidate server — a transport-level failure, or a successfully decoded
answer carrying a DNS response code (0 is success). -/
inductive ExchangeResult where
  | transportError (e : String)
  | answer (rcode : Nat)
  deriving DecidableEq

/-- Modelled from the spec: the outcome a `Resolve` call reports to its
caller. -/
inductive ResolveOutcome where
  | answer (rcode : Nat)
  | noUpstream
  | canceled
  | transportError (e : String)
  deriving DecidableEq

/-- The ordered candidate list of one `Resolve` call: the current LAN
server (when present) first, then the public servers in snapshot order. -/
def candidateList (st : OsResolverState) : List String :=
  (match st.currentLanServer with
   | some l => [l]
   | none => []) ++ st.publicServer

/-- Modelled from the spec: the candidate loop of `osResolver.Resolve` (the
resolver source is not among the available files; only its tests are).
`ctx n` reports whether the caller's context is canceled before attempt
number `n`; `ex` is the transport exchange.  The accumulator carries the
best-known non-success answer and the last transport error; the returned
pair is the outcome together with the number of candidate attempts
performed. -/
def resolveGo (ctx : Nat → Bool) (ex : String → ExchangeResult) :
    List String → Nat → Option Nat → Option String → ResolveOutcome × Nat
  | [], n, some rc, _ => (.answer rc, n)
  | [], n, none, some e => (.transportError e, n)
  | [], n, none, none => (.noUpstream, n)
  | c :: rest, n, best, lastErr =>
    if ctx n then (.canceled, n)
    else
      match ex c with
      | .transportError e => resolveGo ctx ex rest (n + 1) best (some e)
      | .answer rc =>
        if rc = 0 then (.answer rc, n + 1)
        else resolveGo ctx ex rest (n + 1) (some rc) lastErr

/-- Modelled from the spec: `osResolver.Resolve` (the resolver source is
not among the available files; only its tests are).  An empty candidate
list fails immediately with a no-upstream error and no network attempt;
otherwise the candidates are tried strictly in order under the caller's
context. -/
def osResolve (ctx : Nat → Bool) (ex : String → ExchangeResult)
    (st : OsResolverState) : ResolveOutcome × Nat :=
  match candidateList st with
  | [] => (.noUpstream, 0)
  | c :: rest => resolveGo ctx ex (c :: rest) 0 none none

/-- Service section of the configuration structure
(`cfg.Service`, from `cmd/cli/main.go` and the config it consumes). -/
structure ServiceConfig where
  cacheEnable : Bool
  cacheSize : Int
  logPath : String
  deriving DecidableEq

/-- Configuration structure (`cfg` of `cmd/cli/main.go`). -/
structure Config where
  service : ServiceConfig
  deriving DecidableEq

/-- `initCache` from `cmd/cli/main.go`: when the cache is disabled, return
with the configuration untouched; otherwise normalize a cache size of 0 to
4096. -/
def initCache (cfg : Config) : Config :=
  if !cfg.service.cacheEnable then cfg
  else if cfg.service.cacheSize = 0 then
    { cfg with service := { cfg.service with cacheSize := 4096 } }
  else cfg

/-- Model of Go's `filepath.IsAbs` on Unix: the path starts with a path
separator. -/
def isAbsPath (p : String) : Bool :=
  charsStartWith "/".data p.data

/-- Model of Go's `filepath.Join` on two non-empty components (path
cleaning is irrelevant to the properties proved here). -/
def filepathJoin (dir p : String) : String :=
  dir ++ "/" ++ p

/-- `normalizeLogFilePath` from `cmd/cli/main.go`.  The package globals it
reads (`homedir`, `service.Interactive()`, `userHomeDir()`) are passed as
parameters. -/
def normalizeLogFilePath (homedir : String) (interactive : Bool)
    (userHome : String) (logFilePath : String) : String :=
  if logFilePath == "" || isAbsPath logFilePath || interactive then logFilePath
  else if homedir != "" then filepathJoin homedir logFilePath
  else if userHome == "" then logFilePath
  else filepathJoin userHome logFilePath

example : ResolverTypeFromEndpoint "8.8.8.8:53" = .legacy := by decide
example : ResolverTypeFromEndpoint "[2404:6800:4005:809::200e]:53" = .legacy := by decide
example : ResolverTypeFromEndpoint "p2.freedns.controld.com" = .dot := by decide
example : ResolverTypeFromEndpoint "https://freedns.controld.com/p2" = .doh := by decide
example : ResolverTypeFromEndpoint "quic://p2.freedns.controld.com" = .doq := by decide

/-- Claim C2: the endpoint classifier is a pure total function returning a
`ResolverType` for every input string, and on the edge cases it returns:
`"8.8.8.8:53"` and `"[2404:6800:4005:809::200e]:53"` → Legacy,
`"p2.freedns.controld.com"` → DOT, `"https://freedns.controld.com/p2"` →
DOH, `"quic://p2.freedns.controld.com"` → DOQ. -/
theorem resolverTypeFromEndpoint_total_and_edge_cases :
    (∀ e : String, ∃ t : ResolverType, ResolverTypeFromEndpoint e = t)
    ∧ ResolverTypeFromEndpoint "8.8.8.8:53" = ResolverType.legacy
    ∧ ResolverTypeFromEndpoint "[2404:6800:4005:809::200e]:53" = ResolverType.legacy
    ∧ ResolverTypeFromEndpoint "p2.freedns.controld.com" = ResolverType.dot
    ∧ ResolverTypeFromEndpoint "https://freedns.controld.com/p2" = ResolverType.doh
    ∧ ResolverTypeFromEndpoint "quic://p2.freedns.controld.com" = ResolverType.doq :=
  ⟨fun e => ⟨ResolverTypeFromEndpoint e, rfl⟩, by decide, by decide, by decide, by decide,
    by decide⟩

/-- Claim C5: a refresh whose observed nameserver list contains no
LAN-local address clears both `currentLanServer` and `lastLanServer`,
regardless of the prior detector state. -/
theorem initializeOsResolver_no_lan_clears (st : OsResolverState) (ns : List String)
    (h : ∀ a ∈ ns, isLanAddr a = false) :
    (initializeOsResolver st ns).currentLanServer = none ∧
      (initializeOsResolver st ns).lastLanServer = none := by
  have hf : ns.find? isLanAddr = none := by
    rw [List.find?_eq_none]
    intro x hx
    simp [h x hx]
  simp [initializeOsResolver, hf]

/-- Witness for C5 at the concrete list `["1.1.1.1"]` and a prior state
with both LAN fields set. -/
theorem initializeOsResolver_no_lan_clears_witness :
    (initializeOsResolver ⟨some "10.0.10.69", some "192.168.1.1", []⟩
        ["1.1.1.1"]).currentLanServer = none ∧
      (initializeOsResolver ⟨some "10.0.10.69", some "192.168.1.1", []⟩
        ["1.1.1.1"]).lastLanServer = none :=
  initializeOsResolver_no_lan_clears ⟨some "10.0.10.69", some "192.168.1.1", []⟩
    ["1.1.1.1"] (by decide)

/-- Claim C6: after every refresh, `publicServer` equals exactly the
WAN-public addresses of the input list in order, each normalized to
`host:port` with default port 53 when absent; the previous value is fully
replaced (the result does not depend on the prior state).  The last three
conjuncts exhibit the normalization on a portless IPv4 address, an address
that already carries a port, and a portless IPv6 address. -/
theorem initializeOsResolver_publicServer (st st' : OsResolverState) (ns : List String) :
    (initializeOsResolver st ns).publicServer
        = (ns.filter (fun a => !isLanAddr a)).map normalizeNS
    ∧ (initializeOsResolver st ns).publicServer = (initializeOsResolver st' ns).publicServer
    ∧ normalizeNS "1.1.1.1" = "1.1.1.1:53"
    ∧ normalizeNS "9.9.9.9:9953" = "9.9.9.9:9953"
    ∧ normalizeNS "2606:4700:4700::1111" = "[2606:4700:4700::1111]:53" := by
  have key : ∀ s : OsResolverState, (initializeOsResolver s ns).publicServer
      = (ns.filter (fun a => !isLanAddr a)).map normalizeNS := by
    intro s
    unfold initializeOsResolver
    rcases hf : ns.find? isLanAddr with _ | l
    · simp
    · by_cases h : s.currentLanServer = some l <;> simp [h]
  exact ⟨key st, (key st).trans (key st').symm, by decide, by decide, by decide⟩

/-- Claim C8 counterexample: with the cache disabled and a configured size
of 0, `initCache` leaves the size at 0 — it is not normalized to 4096, so
the unconditional normalization claim fails. -/
theorem initCache_zero_size_counterexample :
    (initCache ⟨⟨false, 0, ""⟩⟩).service.cacheSize = 0 ∧
      (initCache ⟨⟨false, 0, ""⟩⟩).service.cacheSize ≠ 4096 := by decide

/-- Claim C8 (amended): when the cache is enabled, a configured cache size
of 0 is normalized to the default of 4096 entries by `initCache`. -/
theorem initCache_normalizes_zero_size (cfg : Config)
    (hEnable : cfg.service.cacheEnable = true) (hSize : cfg.service.cacheSize = 0) :
    (initCache cfg).service.cacheSize = 4096 := by
  simp [initCache, hEnable, hSize]

/-- Witness for the amended C8 at an enabled configuration of size 0. -/
theorem initCache_normalizes_zero_size_witness :
    (initCache ⟨⟨true, 0, ""⟩⟩).service.cacheSize = 4096 :=
  initCache_normalizes_zero_size ⟨⟨true, 0, ""⟩⟩ rfl rfl

/-- Claim C9: when the cache is disabled, `initCache` returns immediately
and leaves the whole configuration unchanged; in particular the supplied
cache size (including 0) is kept. -/
theorem initCache_disabled_is_noop (cfg : Config)
    (h : cfg.service.cacheEnable = false) :
    initCache cfg = cfg ∧ (initCache cfg).service.cacheSize = cfg.service.cacheSize := by
  have : initCache cfg = cfg := by simp [initCache, h]
  exact ⟨this, by rw [this]⟩

/-- Witness for C9 at a disabled configuration of size 0. -/
theorem initCache_disabled_is_noop_witness :
    initCache ⟨⟨false, 0, "ctrld.log"⟩⟩ = ⟨⟨false, 0, "ctrld.log"⟩⟩ :=
  (initCache_disabled_is_noop ⟨⟨false, 0, "ctrld.log"⟩⟩ rfl).1

/-- Claim C10: `normalizeLogFilePath` returns its argument unchanged for
the empty string, for an absolute path, and whenever the service runs
interactively; a relative non-interactive path is joined to the configured
home directory, else to the user home directory, and is returned unchanged
when neither is available. -/
theorem normalizeLogFilePath_cases (homedir userHome p : String) (interactive : Bool) :
    (p = "" → normalizeLogFilePath homedir interactive userHome p = p)
    ∧ (isAbsPath p = true → normalizeLogFilePath homedir interactive userHome p = p)
    ∧ (interactive = true → normalizeLogFilePath homedir interactive userHome p = p)
    ∧ (p ≠ "" → isAbsPath p = false → interactive = false →
        (homedir ≠ "" →
          normalizeLogFilePath homedir interactive userHome p = filepathJoin homedir p)
        ∧ (homedir = "" → userHome ≠ "" →
          normalizeLogFilePath homedir interactive userHome p = filepathJoin userHome p)
        ∧ (homedir = "" → userHome = "" →
          normalizeLogFilePath homedir interactive userHome p = p)) := by
  unfold normalizeLogFilePath
  refine ⟨fun h => by simp [h], fun h => by simp [h], fun h => by simp [h], ?_⟩
  intro h1 h2 h3
  refine ⟨fun h4 => by simp [h1, h2, h3, h4], fun h4 h5 => by simp [h1, h2, h3, h4, h5],
    fun h4 h5 => by simp [h1, h2, h3, h4, h5]⟩

/-- Witness for C10: a relative path with a configured home directory is
joined to it. -/
theorem normalizeLogFilePath_cases_witness :
    ("ctrld.log" : String) ≠ "" ∧
      normalizeLogFilePath "/hd" false "" "ctrld.log" = filepathJoin "/hd" "ctrld.log" :=
  ⟨by decide,
    ((normalizeLogFilePath_cases "/hd" "" "ctrld.log" false).2.2.2 (by decide) (by decide)
      rfl).1 (by decide)⟩

/-- Claim C1: with three candidate servers answering refused (rcode 5),
name-error (rcode 3), and success (rcode 0) in that order, every transport
exchange succeeding and the context never canceled, `Resolve` returns the
success-coded answer and performs exactly three candidate attempts — the
earlier non-success answers are not fatal. -/
theorem osResolve_fallback_three (ctx : Nat → Bool) (ex : String → ExchangeResult)
    (a b c : String) (hctx : ∀ n, ctx n = false)
    (ha : ex a = .answer 5) (hb : ex b = .answer 3) (hc : ex c = .answer 0) :
    osResolve ctx ex ⟨none, none, [a, b, c]⟩ = (.answer 0, 3) := by
  simp [osResolve, candidateList, resolveGo, hctx, ha, hb, hc]

/-- Witness for C1 with three concrete servers. -/
theorem osResolve_fallback_three_witness :
    osResolve (fun _ => false)
        (fun s => if s = "127.0.0.1:5301" then .answer 5
          else if s = "127.0.0.1:5302" then .answer 3 else .answer 0)
        ⟨none, none, ["127.0.0.1:5301", "127.0.0.1:5302", "127.0.0.1:5303"]⟩
      = (.answer 0, 3) :=
  osResolve_fallback_three (fun _ => false)
    (fun s => if s = "127.0.0.1:5301" then .answer 5
      else if s = "127.0.0.1:5302" then .answer 3 else .answer 0)
    "127.0.0.1:5301" "127.0.0.1:5302" "127.0.0.1:5303"
    (fun _ => rfl) (by decide) (by decide) (by decide)

/-- Claim C7: a `Resolve` call whose context is already canceled before
the first candidate attempt (and whose candidate list is non-empty, so the
no-upstream short-circuit does not apply) returns a cancellation error
after zero attempts; more generally, whenever the context is observed
canceled before any attempt of the candidate loop, the loop returns a
cancellation error there instead of continuing to the next candidate. -/
theorem osResolve_canceled (ctx : Nat → Bool) (ex : String → ExchangeResult)
    (st : OsResolverState) (h0 : ctx 0 = true) (hne : candidateList st ≠ []) :
    osResolve ctx ex st = (.canceled, 0)
    ∧ ∀ (cs : List String) (n : Nat) (best : Option Nat) (lastErr : Option String),
        cs ≠ [] → ctx n = true → resolveGo ctx ex cs n best lastErr = (.canceled, n) := by
  have key : ∀ (cs : List String) (n : Nat) (best : Option Nat) (lastErr : Option String),
      cs ≠ [] → ctx n = true → resolveGo ctx ex cs n best lastErr = (.canceled, n) := by
    intro cs n best lastErr hcs hn
    cases cs with
    | nil => exact absurd rfl hcs
    | cons c rest => simp [resolveGo, hn]
  refine ⟨?_, key⟩
  unfold osResolve
  rcases hcl : candidateList st with _ | ⟨c, rest⟩
  · exact absurd hcl hne
  · exact key (c :: rest) 0 none none (by simp) h0

/-- Witness for C7 at the test's single public server and an
already-canceled context. -/
theorem osResolve_canceled_witness :
    candidateList ⟨none, none, ["127.0.0.127:5353"]⟩ ≠ [] ∧
      osResolve (fun _ => true) (fun _ => .answer 0) ⟨none, none, ["127.0.0.127:5353"]⟩
        = (.canceled, 0) :=
  ⟨by decide,
    (osResolve_canceled (fun _ => true) (fun _ => .answer 0)
      ⟨none, none, ["127.0.0.127:5353"]⟩ rfl (by decide)).1⟩

/-- Claim C3 counterexample: the list `["10.0.10.69", "192.168.1.1"]`
contains the LAN-local address `"192.168.1.1"`, yet refreshing twice in a
row with it (from the initial state) leaves `lastLanServer` at
`"10.0.10.69"` — the first LAN-local entry — not at `"192.168.1.1"`, so
the claim quantified over any contained LAN-local address fails. -/
theorem initializeOsResolver_twice_same_counterexample :
    isLanAddr "192.168.1.1" = true ∧
    "192.168.1.1" ∈ (["10.0.10.69", "192.168.1.1"] : List String) ∧
    (initializeOsResolver
        (initializeOsResolver osResolverInit ["10.0.10.69", "192.168.1.1"])
        ["10.0.10.69", "192.168.1.1"]).lastLanServer ≠ some "192.168.1.1" := by decide

/-- Claim C3 (amended): for every nameserver list whose *first* LAN-local
address is `L`, and every prior state in which `L` is not already flagged
current (in particular the initial empty state), refreshing twice in a row
with that identical list yields `currentLanServer = none` and
`lastLanServer = L` after the second call. -/
theorem initializeOsResolver_twice_same (st : OsResolverState) (ns : List String)
    (L : String) (hL : ns.find? isLanAddr = some L)
    (hcur : st.currentLanServer ≠ some L) :
    (initializeOsResolver (initializeOsResolver st ns) ns).currentLanServer = none ∧
      (initializeOsResolver (initializeOsResolver st ns) ns).lastLanServer = some L := by
  have h1 : initializeOsResolver st ns
      = ⟨some L, st.lastLanServer, (ns.filter (fun a => !isLanAddr a)).map normalizeNS⟩ := by
    simp [initializeOsResolver, hL, hcur]
  rw [h1]
  simp [initializeOsResolver, hL]

/-- Witness for the amended C3 from the initial state and the test's
nameserver list. -/
theorem initializeOsResolver_twice_same_witness :
    (["192.168.1.1", "1.1.1.1"] : List String).find? isLanAddr = some "192.168.1.1" ∧
    osResolverInit.currentLanServer ≠ some "192.168.1.1" ∧
    (initializeOsResolver
        (initializeOsResolver osResolverInit ["192.168.1.1", "1.1.1.1"])
        ["192.168.1.1", "1.1.1.1"]).currentLanServer = none ∧
    (initializeOsResolver
        (initializeOsResolver osResolverInit ["192.168.1.1", "1.1.1.1"])
        ["192.168.1.1", "1.1.1.1"]).lastLanServer = some "192.168.1.1" := by
  refine ⟨by decide, by decide, ?_, ?_⟩
  · exact (initializeOsResolver_twice_same osResolverInit ["192.168.1.1", "1.1.1.1"]
      "192.168.1.1" (by decide) (by decide)).1
  · exact (initializeOsResolver_twice_same osResolverInit ["192.168.1.1", "1.1.1.1"]
      "192.168.1.1" (by decide) (by decide)).2

/-- Claim C4 counterexample: from the initial state,
`Refresh(["192.168.1.1", "1.1.1.1"])` then
`Refresh(["10.0.10.69", "192.168.1.1", "1.1.1.1"])` yields
`currentLanServer = "10.0.10.69"` as claimed, but `lastLanServer = none`,
not `"192.168.1.1"` — the two-call sequence alone does not record the
previous LAN server. -/
theorem initializeOsResolver_change_counterexample :
    (initializeOsResolver
        (initializeOsResolver osResolverInit ["192.168.1.1", "1.1.1.1"])
        ["10.0.10.69", "192.168.1.1", "1.1.1.1"]).currentLanServer = some "10.0.10.69" ∧
    (initializeOsResolver
        (initializeOsResolver osResolverInit ["192.168.1.1", "1.1.1.1"])
        ["10.0.10.69", "192.168.1.1", "1.1.1.1"]).lastLanServer = none ∧
    (initializeOsResolver
        (initializeOsResolver osResolverInit ["192.168.1.1", "1.1.1.1"])
        ["10.0.10.69", "192.168.1.1", "1.1.1.1"]).lastLanServer
      ≠ some "192.168.1.1" := by decide

/-- Claim C4 (amended): for distinct LAN-local addresses `lanA`, `lanB`
and a WAN address `wan`, `Refresh([lanA, wan])` then
`Refresh([lanB, lanA, wan])` yields `currentLanServer = lanB` and
`lastLanServer = lanA`, provided `lanA` was already recorded as the
current or the last LAN server before the first call (as in the test,
where a preceding double refresh promoted `lanA` into `lastLanServer`);
`lastLanServer` is left unchanged by the second call. -/
theorem initializeOsResolver_change_detection (st : OsResolverState)
    (lanA lanB wan : String)
    (hA : isLanAddr lanA = true) (hB : isLanAddr lanB = true)
    (hW : isLanAddr wan = false) (hAB : lanA ≠ lanB)
    (hprior : st.currentLanServer = some lanA ∨ st.lastLanServer = some lanA) :
    (initializeOsResolver (initializeOsResolver st [lanA, wan])
        [lanB, lanA, wan]).currentLanServer = some lanB ∧
      (initializeOsResolver (initializeOsResolver st [lanA, wan])
        [lanB, lanA, wan]).lastLanServer = some lanA := by
  have hf1 : ([lanA, wan] : List String).find? isLanAddr = some lanA := by
    simp [List.find?, hA]
  have hf2 : ([lanB, lanA, wan] : List String).find? isLanAddr = some lanB := by
    simp [List.find?, hB]
  by_cases hc : st.currentLanServer = some lanA
  · constructor <;> simp [initializeOsResolver, hf1, hf2, hc]
  · have hl : st.lastLanServer = some lanA := hprior.resolve_left hc
    constructor <;> simp [initializeOsResolver, hf1, hf2, hc, hl, hAB]

/-- Witness for the amended C4: the prior state already records
`"192.168.1.1"` as the last LAN server. -/
theorem initializeOsResolver_change_detection_witness :
    isLanAddr "192.168.1.1" = true ∧ isLanAddr "10.0.10.69" = true ∧
    isLanAddr "1.1.1.1" = false ∧ ("192.168.1.1" : String) ≠ "10.0.10.69" ∧
    (initializeOsResolver
        (initializeOsResolver ⟨none, some "192.168.1.1", ["1.1.1.1:53"]⟩
          ["192.168.1.1", "1.1.1.1"])
        ["10.0.10.69", "192.168.1.1", "1.1.1.1"]).currentLanServer = some "10.0.10.69" ∧
    (initializeOsResolver
        (initializeOsResolver ⟨none, some "192.168.1.1", ["1.1.1.1:53"]⟩
          ["192.168.1.1", "1.1.1.1"])
        ["10.0.10.69", "192.168.1.1", "1.1.1.1"]).lastLanServer = some "192.168.1.1" := by
  refine ⟨by decide, by decide, by decide, by decide, ?_, ?_⟩
  · exact (initializeOsResolver_change_detection ⟨none, some "192.168.1.1", ["1.1.1.1:53"]⟩
      "192.168.1.1" "10.0.10.69" "1.1.1.1" (by decide) (by decide) (by decide) (by decide)
      (Or.inr rfl)).1
  · exact (initializeOsResolver_change_detection ⟨none, some "192.168.1.1", ["1.1.1.1:53"]⟩
      "192.168.1.1" "10.0.10.69" "1.1.1.1" (by decide) (by decide) (by decide) (by decide)
      (Or.inr rfl)).2

-- scratch checks mirroring Test_initializeOsResolver
example :
    initializeOsResolver osResolverInit ["192.168.1.1", "1.1.1.1"]
      = ⟨some "192.168.1.1", none, ["1.1.1.1:53"]⟩ := by decide
example :
    initializeOsResolver ⟨some "192.168.1.1", none, ["1.1.1.1:53"]⟩ ["192.168.1.1", "1.1.1.1"]
      = ⟨none, some "192.168.1.1", ["1.1.1.1:53"]⟩ := by decide
example :
    initializeOsResolver ⟨none, some "192.168.1.1", ["1.1.1.1:53"]⟩
        ["10.0.10.69", "192.168.1.1", "1.1.1.1"]
      = ⟨some "10.0.10.69", some "192.168.1.1", ["1.1.1.1:53"]⟩ := by decide
example :
    initializeOsResolver ⟨some "10.0.10.69", some "192.168.1.1", ["1.1.1.1:53"]⟩ ["1.1.1.1"]
      = ⟨none, none, ["1.1.1.1:53"]⟩ := by decide
